import Mathlib

/-!
Verification of the spharpy repository against its specification.

The repository ships one source file, `setup.py` (the packaging
descriptor).  It is embedded below as pure functions over an explicit
file-system model.  The spherical-harmonic-transform core described by
the specification has no source in the repository; the parts of it that
the claims need are modelled from the spec (each such definition says so
in its doc comment).
-/

namespace Spharpy

/-! ## Embedding of `setup.py` -/

/-- A file system maps a file name to its contents (`none` = missing).
Contents are modelled as lists of characters. -/
def FS : Type := String → Option (List Char)

/-- File operations a script can perform. `setup.py` only ever reads. -/
inductive FileOp : Type
  | read : String → FileOp
  | write : String → List Char → FileOp
deriving DecidableEq

/-- Applying one file operation to a file system: reads leave it
unchanged, writes update the named file. -/
def applyOp (fs : FS) : FileOp → FS
  | .read _ => fs
  | .write p c => fun q => if q = p then some c else fs q

/-- Applying a trace of file operations in order. -/
def applyOps (fs : FS) (ops : List FileOp) : FS :=
  ops.foldl applyOp fs

/-- `requirements` list from `setup.py`. -/
def requirements : List String :=
  ["numpy>=1.10", "scipy", "urllib3", "matplotlib"]

/-- `setup_requirements` list from `setup.py`. -/
def setup_requirements : List String :=
  ["pytest-runner"]

/-- `test_requirements` list from `setup.py`. -/
def test_requirements : List String :=
  ["pytest", "wheel", "flake8", "bump2version"]

/-- The keyword arguments `setup.py` passes to `setuptools.setup`. -/
structure SetupArgs : Type where
  name : String
  version : String
  description : String
  long_description : List Char
  author : String
  author_email : String
  url : String
  install_requires : List String
  license : String
  keywords : String
  test_suite : String
  tests_require : List String
  setup_requires : List String
deriving DecidableEq

/-- The separator `'\n\n'` placed between the two README/HISTORY parts
of `long_description` in `setup.py`. -/
def sepNlNl : List Char := ['\n', '\n']

/-- The `setup(...)` call of `setup.py`, as a function of the contents
read from `README.rst` and `HISTORY.rst`. -/
def runSetup (readme history : List Char) : SetupArgs where
  name := "spharpy"
  version := "0.3.2"
  description := "Python package for spherical array processing."
  long_description := readme ++ sepNlNl ++ history
  author := "Marco Berzborn"
  author_email := "marco.berzborn@akustik.rwth-aachen.de"
  url := "https://git.rwth-aachen.de/mbe/spharpy/"
  install_requires := requirements
  license := "MIT license"
  keywords := "spharpy"
  test_suite := "tests"
  tests_require := test_requirements
  setup_requires := setup_requirements

/-- The whole `setup.py` script: open `README.rst`, open `HISTORY.rst`,
then call `setup`.  A missing file raises at its `open`, i.e. the script
stops with an error before `setup` is ever reached.  The second
component is the trace of file operations successfully performed. -/
def setupScript (fs : FS) : Except String SetupArgs × List FileOp :=
  match fs "README.rst" with
  | none => (.error "FileNotFoundError: README.rst", [])
  | some readme =>
    match fs "HISTORY.rst" with
    | none => (.error "FileNotFoundError: HISTORY.rst", [.read "README.rst"])
    | some history =>
      (.ok (runSetup readme history), [.read "README.rst", .read "HISTORY.rst"])

/-! ## Spec-modelled spherical-harmonic core

The spec (sections 3, 4.2, 4.3) describes the SHT engine whose source is
absent from the repository; the definitions below are modelled from the
spec's words, in exact real arithmetic.
-/

/-- Modelled from the spec: the associated Legendre recurrence of §4.2,
missing from the repository source.  `legP m x s k` is `P_(m+k)^m`
evaluated at `x = cos θ` with `s = sin θ`: seeded at degree `n = m` with
the closed form `(-1)^m (2m-1)!! s^m` (Condon-Shortley phase), then
raised degree-by-degree holding `m` fixed by the stable three-term
recurrence `(n-m) P_n^m = (2n-1) x P_(n-1)^m - (n+m-1) P_(n-2)^m`. -/
noncomputable def legP (m : ℕ) (x s : ℝ) : ℕ → ℝ
  | 0 => (-1 : ℝ) ^ m * (Nat.doubleFactorial (2 * m - 1) : ℝ) * s ^ m
  | 1 => ((2 * m + 1 : ℕ) : ℝ) * x * legP m x s 0
  | (k + 2) =>
      (((2 * (m + k) + 3 : ℕ) : ℝ) * x * legP m x s (k + 1)
        - ((2 * m + k + 1 : ℕ) : ℝ) * legP m x s k) / ((k + 2 : ℕ) : ℝ)

/-- Modelled from the spec: the fully-normalized (orthonormal)
normalization constant `N_n^m = sqrt((2n+1)/(4π) · (n-m)!/(n+m)!)`,
fixed per §3.3 so that the basis is orthonormal under the continuous
inner product on the sphere. -/
noncomputable def shNorm (n m : ℕ) : ℝ :=
  Real.sqrt (((2 * n + 1 : ℕ) : ℝ) / (4 * Real.pi)
    * ((n - m).factorial : ℝ) / ((n + m).factorial : ℝ))

/-- Modelled from the spec: the real spherical-harmonic basis function of
degree `n` and mode `m` at direction `(θ, φ)` (colatitude, azimuth),
missing from the repository source.  Azimuthal dependence is the
sine/cosine pair of §4.2 for the real basis; `m = 0` has no azimuthal
factor, and the degree part is the normalized associated Legendre value
at `cos θ` via the recurrence `legP`. -/
noncomputable def shBasisFun (n : ℕ) (m : ℤ) (theta phi : ℝ) : ℝ :=
  if m = 0 then
    shNorm n 0 * legP 0 (Real.cos theta) (Real.sin theta) n
  else if 0 < m then
    Real.sqrt 2 * shNorm n m.toNat
      * legP m.toNat (Real.cos theta) (Real.sin theta) (n - m.toNat)
      * Real.cos ((m : ℝ) * phi)
  else
    Real.sqrt 2 * shNorm n (-m).toNat
      * legP (-m).toNat (Real.cos theta) (Real.sin theta) (n - (-m).toNat)
      * Real.sin (((-m : ℤ) : ℝ) * phi)

/-- Linear index `k = n² + n + m` decoded to the degree `n`. -/
def shDeg (k : ℕ) : ℕ := Nat.sqrt k

/-- Linear index `k = n² + n + m` decoded to the mode `m`. -/
def shOrd (k : ℕ) : ℤ := (k : ℤ) - (shDeg k : ℤ) ^ 2 - (shDeg k : ℤ)

/-- Modelled from the spec: a `SamplingGrid` (§3), an ordered sequence of
points `(colatitude, azimuth)` with a parallel sequence of quadrature
weights; the repository contains no grid source. -/
structure SamplingGrid : Type where
  points : List (ℝ × ℝ)
  weights : List ℝ

/-- A grid's point count. -/
def SamplingGrid.pointCount (g : SamplingGrid) : ℕ := g.points.length

/-- Number of coefficients for maximum order `N`: `(N+1)²` (§3). -/
def numCoeffs (N : ℕ) : ℕ := (N + 1) ^ 2

/-- Modelled from the spec: the grid errors of §7; the source of the
error taxonomy is absent from the repository. -/
inductive GridError : Type
  | invalidGrid : GridError
deriving DecidableEq

/-- Modelled from the spec: the transform-engine errors of §7; the
source of the error taxonomy is absent from the repository. -/
inductive TransformError : Type
  | dimensionMismatch : TransformError
deriving DecidableEq

/-- Modelled from the spec: the `SamplingGrid` constructor (§4.1),
missing from the repository source.  It fails with `InvalidGridError` if
the supplied weight count mismatches the point count, and validates the
§3 invariant (nonnegative weights) so that every constructed grid
satisfies it. -/
noncomputable def mkSamplingGrid (pts : List (ℝ × ℝ)) (ws : List ℝ) :
    Except GridError SamplingGrid :=
  if ws.length = pts.length ∧ ∀ w ∈ ws, 0 ≤ w then
    .ok ⟨pts, ws⟩
  else
    .error .invalidGrid

/-- Weight of the `j`-th grid point, as a `Fin`-indexed vector. -/
def weightVec (g : SamplingGrid) (j : Fin g.pointCount) : ℝ :=
  g.weights.getD j 0

/-- Modelled from the spec: the Basis Evaluator output (§4.2), the dense
`numPoints × numCoefficients` matrix of basis-function values at the
grid points, missing from the repository source. -/
noncomputable def basisMatrix (g : SamplingGrid) (N : ℕ) :
    Matrix (Fin g.pointCount) (Fin (numCoeffs N)) ℝ :=
  Matrix.of fun j k =>
    shBasisFun (shDeg k) (shOrd k) (g.points.get j).1 (g.points.get j).2

/-- Modelled from the spec: the quadrature-path forward transform (§4.3),
`coefficients = Basisᴴ · diag(weights) · samples`, missing from the
repository source. -/
noncomputable def forwardTransform (g : SamplingGrid) (N : ℕ)
    (samples : Fin g.pointCount → ℝ) : Fin (numCoeffs N) → ℝ :=
  ((basisMatrix g N).conjTranspose * Matrix.diagonal (weightVec g)).mulVec samples

/-- Modelled from the spec: the inverse transform (§4.3),
`samples = Basis · coefficients`, missing from the repository source. -/
noncomputable def inverseTransform (g : SamplingGrid) (N : ℕ)
    (coeffs : Fin (numCoeffs N) → ℝ) : Fin g.pointCount → ℝ :=
  (basisMatrix g N).mulVec coeffs

/-- Modelled from the spec glossary: the grid's weights are exact
quadrature weights for order `N` when the weighted discrete sum of any
product of two basis functions of order at most `N` equals its
continuous integral over the sphere, which is `1` for equal indices and
`0` otherwise (orthonormality of the continuous basis). -/
def exactQuadrature (g : SamplingGrid) (N : ℕ) : Prop :=
  ∀ i j : Fin (numCoeffs N),
    (∑ k, weightVec g k * basisMatrix g N k i * basisMatrix g N k j)
      = if i = j then (1 : ℝ) else 0

/-- Modelled from the spec glossary: a sample vector is band-limited of
order at most `N` on the grid when it is the synthesis of some
coefficient vector of order `N`. -/
def bandLimited (g : SamplingGrid) (N : ℕ)
    (x : Fin g.pointCount → ℝ) : Prop :=
  ∃ c, x = inverseTransform g N c

/-- Modelled from the spec: `forwardTransform` with the §4.3 dimension
check on list-valued samples; fails with `DimensionMismatchError` when
the samples length differs from the grid point count, returning no
partial result. -/
noncomputable def forwardTransformChecked (g : SamplingGrid) (N : ℕ)
    (samples : List ℝ) : Except TransformError (List ℝ) :=
  if samples.length = g.pointCount then
    .ok (List.ofFn (forwardTransform g N (fun j => samples.getD j 0)))
  else
    .error .dimensionMismatch

/-- Modelled from the spec: `inverseTransform` with the §4.3 dimension
check on list-valued coefficients; fails with `DimensionMismatchError`
when the coefficients length differs from `(N+1)²`, returning no partial
result. -/
noncomputable def inverseTransformChecked (g : SamplingGrid) (N : ℕ)
    (coeffs : List ℝ) : Except TransformError (List ℝ) :=
  if coeffs.length = numCoeffs N then
    .ok (List.ofFn (inverseTransform g N (fun k => coeffs.getD k 0)))
  else
    .error .dimensionMismatch

/-- The list of `(degree, mode)` index pairs up to order `N`, in the
`(n, m)` ordering of §3 with `n ∈ [0, N]`, `m ∈ [-n, n]`. -/
def shIndexList (N : ℕ) : List (ℕ × ℤ) :=
  (List.range (N + 1)).flatMap fun n =>
    (List.range (2 * n + 1)).map fun j => (n, (j : ℤ) - (n : ℤ))

/-- Modelled from the spec: one row of the basis matrix, the basis
values at a single direction for all indices up to order `N`. -/
noncomputable def basisRow (N : ℕ) (pt : ℝ × ℝ) : List ℝ :=
  (shIndexList N).map fun nm => shBasisFun nm.1 nm.2 pt.1 pt.2

/-- Modelled from the spec (§5): single-threaded basis evaluation, one
output row per grid point in order. -/
noncomputable def basisEval (N : ℕ) (pts : List (ℝ × ℝ)) : List (List ℝ) :=
  pts.map (basisRow N)

/-- Splitting a work list into consecutive chunks of `c + 1` elements
(the last chunk may be shorter); a chunk size of at least 1 is built in
so the split always terminates. -/
def chunksOf (c : ℕ) : List α → List (List α)
  | [] => []
  | a :: l => (a :: l.take c) :: chunksOf c (l.drop c)
termination_by l => l.length
decreasing_by simp [List.length_drop]; omega

/-- Modelled from the spec (§5): data-parallel basis evaluation with
`numThreads` workers.  The grid points are split into equal consecutive
chunks, each worker evaluates its chunk independently (no shared mutable
state), and the per-worker outputs are concatenated in order. -/
noncomputable def parallelBasisEval (numThreads N : ℕ)
    (pts : List (ℝ × ℝ)) : List (List ℝ) :=
  ((chunksOf ((pts.length + numThreads - 1) / numThreads - 1) pts).map
    (List.map (basisRow N))).flatten

/-! ## Concrete witness data -/

/-- A one-point grid (north pole) carrying the full sphere surface `4π`
as its quadrature weight: exact for order 0. -/
noncomputable def poleGrid : SamplingGrid := ⟨[(0, 0)], [4 * Real.pi]⟩

/-- A 32-point grid with unit weights, used to exercise the dimension
checks. -/
noncomputable def grid32 : SamplingGrid :=
  ⟨List.replicate 32 (0, 0), List.replicate 32 1⟩

/-- A band-limited (order-0) sample vector on `poleGrid`: the synthesis
of the coefficient vector that is constantly `1`. -/
noncomputable def poleSample : Fin poleGrid.pointCount → ℝ :=
  inverseTransform poleGrid 0 fun _ => 1

/-- The constant file system used to witness the missing-file behaviour:
no file exists. -/
def emptyFS : FS := fun _ => none

/-! ## Theorems -/

/-- C7: general-purpose linear algebra comes from declared external
dependencies, not this package: the install requirements passed to
`setup` are exactly `['numpy>=1.10', 'scipy', 'urllib3', 'matplotlib']`. -/
theorem install_requires_exact (readme history : List Char) :
    (runSetup readme history).install_requires
      = ["numpy>=1.10", "scipy", "urllib3", "matplotlib"] := rfl

/-- C8: the `long_description` passed to `setup` is the full contents of
`README.rst`, then the two-character separator `'\n\n'`, then the full
contents of `HISTORY.rst`, in that order. -/
theorem long_description_structure (readme history : List Char) :
    (runSetup readme history).long_description = readme ++ sepNlNl ++ history
    ∧ sepNlNl.length = 2
    ∧ (runSetup readme history).long_description.take readme.length = readme
    ∧ (runSetup readme history).long_description.drop (readme.length + 2)
        = history := by
  refine ⟨rfl, rfl, ?_, ?_⟩
  · show (readme ++ sepNlNl ++ history).take readme.length = readme
    rw [List.append_assoc, List.take_left]
  · show (readme ++ sepNlNl ++ history).drop (readme.length + 2) = history
    have h : readme.length + 2 = (readme ++ sepNlNl).length := by
      simp [sepNlNl]
    rw [h, List.drop_left]

/-- C9: if `README.rst` or `HISTORY.rst` is missing, the script fails at
the corresponding `open` with an error, so `setup` is never invoked and
no package metadata is registered. -/
theorem missing_file_aborts (fs : FS)
    (h : fs "README.rst" = none ∨ fs "HISTORY.rst" = none) :
    ∃ msg, (setupScript fs).1 = .error msg := by
  rcases h with h | h
  · exact ⟨_, by rw [setupScript, h]⟩
  · cases hr : fs "README.rst" with
    | none => exact ⟨_, by rw [setupScript, hr]⟩
    | some r => exact ⟨_, by rw [setupScript, hr, h]⟩

/-- Witness for C9 at a concrete file system with no files. -/
theorem missing_file_aborts_witness :
    ∃ msg, (setupScript emptyFS).1 = .error msg :=
  missing_file_aborts emptyFS (Or.inl rfl)

/-- C10: the script only ever reads; replaying its file-operation trace
over any file system leaves every file, in particular `README.rst` and
`HISTORY.rst`, unchanged. -/
theorem setup_script_writes_nothing (fs : FS) (p : String) :
    applyOps fs (setupScript fs).2 p = fs p := by
  cases hr : fs "README.rst" <;> cases hh : fs "HISTORY.rst" <;>
    simp [setupScript, hr, hh, applyOps, applyOp]

/-- The degree-0 basis function has the constant value `1/√(4π)` at
every direction (helper shared by several developments below). -/
lemma shBasisFun_zero (theta phi : ℝ) :
    shBasisFun 0 0 theta phi = 1 / Real.sqrt (4 * Real.pi) := by
  rw [shBasisFun, if_pos rfl, shNorm, legP]
  simp [Nat.doubleFactorial, Nat.factorial]

/-- C3: for every grid point, the degree-0 (n = 0, m = 0) entry of the
basis matrix produced by the Basis Evaluator has the same constant value
`1/√(4π)` under the fixed normalization convention. -/
theorem degree_zero_constant (g : SamplingGrid) (N : ℕ)
    (j : Fin g.pointCount) (k : Fin (numCoeffs N)) (hk : (k : ℕ) = 0) :
    basisMatrix g N j k = 1 / Real.sqrt (4 * Real.pi) := by
  rw [basisMatrix]
  show shBasisFun (shDeg (k : ℕ)) (shOrd (k : ℕ)) _ _ = _
  rw [hk]
  exact shBasisFun_zero _ _

/-- Witness for C3 on a concrete one-point grid at order 0. -/
theorem degree_zero_constant_witness :
    basisMatrix poleGrid 0 ⟨0, Nat.one_pos⟩ ⟨0, Nat.one_pos⟩
      = 1 / Real.sqrt (4 * Real.pi) :=
  degree_zero_constant poleGrid 0 ⟨0, Nat.one_pos⟩ ⟨0, Nat.one_pos⟩ rfl

/-- Exact quadrature rewritten as the matrix Gram identity (helper
shared by the transform developments below). -/
lemma basisGram (g : SamplingGrid) (N : ℕ) (hQ : exactQuadrature g N) :
    (basisMatrix g N).conjTranspose * Matrix.diagonal (weightVec g)
      * basisMatrix g N = 1 := by
  ext i j
  rw [Matrix.mul_assoc, Matrix.mul_apply, Matrix.one_apply, ← hQ i j]
  refine Finset.sum_congr rfl fun k _ => ?_
  rw [Matrix.conjTranspose_apply, Matrix.diagonal_mul, star_trivial]
  ring

/-- The one-point full-weight grid integrates order-0 basis products
exactly (helper for concrete witnesses). -/
lemma poleGrid_exactQuadrature : exactQuadrature poleGrid 0 := by
  intro i j
  have hc : numCoeffs 0 = 1 := rfl
  have hij : i = j := by
    apply Fin.ext
    have h1 : (i : ℕ) < 1 := lt_of_lt_of_eq i.isLt hc
    have h2 : (j : ℕ) < 1 := lt_of_lt_of_eq j.isLt hc
    omega
  subst hij
  rw [if_pos rfl]
  show ∑ k : Fin poleGrid.pointCount, _ = (1 : ℝ)
  have hpt : poleGrid.pointCount = 1 := rfl
  rw [show (Finset.univ : Finset (Fin poleGrid.pointCount))
        = {⟨0, Nat.one_pos⟩} from rfl]
  rw [Finset.sum_singleton]
  have hw : weightVec poleGrid ⟨0, Nat.one_pos⟩ = 4 * Real.pi := rfl
  have hb : basisMatrix poleGrid 0 ⟨0, Nat.one_pos⟩ i
      = 1 / Real.sqrt (4 * Real.pi) := by
    rw [basisMatrix]
    show shBasisFun (shDeg (i : ℕ)) (shOrd (i : ℕ)) _ _ = _
    have hi : (i : ℕ) = 0 := by
      have h1 : (i : ℕ) < 1 := lt_of_lt_of_eq i.isLt hc
      omega
    rw [hi]
    exact shBasisFun_zero _ _
  rw [hw, hb]
  have hpos : (0 : ℝ) < 4 * Real.pi := by positivity
  have hs : Real.sqrt (4 * Real.pi) * Real.sqrt (4 * Real.pi)
      = 4 * Real.pi := Real.mul_self_sqrt hpos.le
  rw [mul_assoc, div_mul_div_comm, one_mul, hs, mul_one_div,
    div_self hpos.ne']

/-- C2: for every exact-quadrature grid and maxOrder, the basis matrix
produced by the Basis Evaluator satisfies weighted orthonormality:
`Basisᴴ · diag(weights) · Basis = Identity`. -/
theorem basis_weighted_orthonormality (g : SamplingGrid) (N : ℕ)
    (hQ : exactQuadrature g N) :
    (basisMatrix g N).conjTranspose * Matrix.diagonal (weightVec g)
      * basisMatrix g N = 1 :=
  basisGram g N hQ

/-- Witness for C2 on the concrete one-point full-weight grid. -/
theorem basis_weighted_orthonormality_witness :
    (basisMatrix poleGrid 0).conjTranspose
      * Matrix.diagonal (weightVec poleGrid) * basisMatrix poleGrid 0
      = (1 : Matrix (Fin (numCoeffs 0)) (Fin (numCoeffs 0)) ℝ) :=
  basis_weighted_orthonormality poleGrid 0 poleGrid_exactQuadrature

/-- C1: on a grid with exact quadrature weights for maxOrder `N`,
`inverseTransform (forwardTransform x) = x` for every band-limited
sample vector of order at most `N` (exact in the real-arithmetic model,
hence within any floating-point tolerance). -/
theorem transform_round_trip (g : SamplingGrid) (N : ℕ)
    (hQ : exactQuadrature g N) (x : Fin g.pointCount → ℝ)
    (hx : bandLimited g N x) :
    inverseTransform g N (forwardTransform g N x) = x := by
  obtain ⟨c, rfl⟩ := hx
  show (basisMatrix g N).mulVec
      (((basisMatrix g N).conjTranspose
        * Matrix.diagonal (weightVec g)).mulVec
          ((basisMatrix g N).mulVec c))
    = (basisMatrix g N).mulVec c
  rw [Matrix.mulVec_mulVec, Matrix.mulVec_mulVec, Matrix.mul_assoc,
    basisGram g N hQ, Matrix.mul_one]

/-- Witness for C1: a concrete band-limited sample vector on the
one-point full-weight grid round-trips through the transforms. -/
theorem transform_round_trip_witness :
    inverseTransform poleGrid 0 (forwardTransform poleGrid 0 poleSample)
      = poleSample :=
  transform_round_trip poleGrid 0 poleGrid_exactQuadrature poleSample
    ⟨fun _ => 1, rfl⟩

/-- C4: the forward transform fails with `DimensionMismatchError` when
the samples length differs from the grid point count, and the inverse
transform fails with `DimensionMismatchError` when the coefficients
length differs from `(maxOrder+1)²`; the error carries no partial
result. -/
theorem transform_dimension_mismatch (g : SamplingGrid) (N : ℕ) :
    (∀ samples : List ℝ, samples.length ≠ g.pointCount →
      forwardTransformChecked g N samples = .error .dimensionMismatch)
    ∧ (∀ coeffs : List ℝ, coeffs.length ≠ numCoeffs N →
      inverseTransformChecked g N coeffs = .error .dimensionMismatch) := by
  constructor
  · intro samples h
    rw [forwardTransformChecked, if_neg h]
  · intro coeffs h
    rw [inverseTransformChecked, if_neg h]

/-- Witness for C4: a 32-point grid rejects a 30-sample vector, and an
order-0 transform rejects a 3-coefficient vector. -/
theorem transform_dimension_mismatch_witness :
    forwardTransformChecked grid32 0 (List.replicate 30 0)
        = .error .dimensionMismatch
    ∧ inverseTransformChecked grid32 0 (List.replicate 3 0)
        = .error .dimensionMismatch :=
  ⟨(transform_dimension_mismatch grid32 0).1 _ (by
      simp [grid32, SamplingGrid.pointCount]),
   (transform_dimension_mismatch grid32 0).2 _ (by
      simp [numCoeffs])⟩

/-- C5: `SamplingGrid` construction fails with `InvalidGridError` when
the supplied weight count differs from the point count, and every
successfully constructed grid has as many weights as points, all of them
nonnegative. -/
theorem samplingGrid_construction (pts : List (ℝ × ℝ)) (ws : List ℝ) :
    (ws.length ≠ pts.length →
      mkSamplingGrid pts ws = .error .invalidGrid)
    ∧ (∀ g, mkSamplingGrid pts ws = .ok g →
      g.weights.length = g.points.length ∧ ∀ w ∈ g.weights, 0 ≤ w) := by
  constructor
  · intro h
    rw [mkSamplingGrid, if_neg]
    rintro ⟨h1, -⟩
    exact h h1
  · intro g hg
    rw [mkSamplingGrid] at hg
    by_cases hc : ws.length = pts.length ∧ ∀ w ∈ ws, 0 ≤ w
    · rw [if_pos hc] at hg
      cases hg
      exact ⟨hc.1, hc.2⟩
    · rw [if_neg hc] at hg
      cases hg

/-- Witness for C5: mismatched weight count is rejected, and a concrete
successful construction satisfies the invariant. -/
theorem samplingGrid_construction_witness :
    mkSamplingGrid [((0 : ℝ), (0 : ℝ))] [1, 2] = .error .invalidGrid
    ∧ ((⟨[(0, 0)], [1]⟩ : SamplingGrid).weights.length
        = (⟨[(0, 0)], [1]⟩ : SamplingGrid).points.length
      ∧ ∀ w ∈ (⟨[(0, 0)], [1]⟩ : SamplingGrid).weights, 0 ≤ w) :=
  ⟨(samplingGrid_construction _ _).1 (by norm_num),
   (samplingGrid_construction [(0, 0)] [1]).2 ⟨[(0, 0)], [1]⟩ (by
      rw [mkSamplingGrid, if_pos]
      refine ⟨rfl, ?_⟩
      intro w hw
      rw [List.mem_singleton] at hw
      rw [hw]
      norm_num)⟩

/-- Flattening the chunks of a list restores the list (helper for the
parallel-evaluation development). -/
lemma chunksOf_flatten (c : ℕ) : ∀ l : List α, (chunksOf c l).flatten = l
  | [] => by rw [chunksOf]; rfl
  | a :: l => by
    rw [chunksOf]
    simp only [List.flatten_cons, chunksOf_flatten c (l.drop c)]
    simp [List.take_append_drop]
termination_by l => l.length
decreasing_by simp [List.length_drop]; omega

/-- Chunking commutes with mapping (helper for the parallel-evaluation
development). -/
lemma chunksOf_map (c : ℕ) (f : α → β) :
    ∀ l : List α, chunksOf c (l.map f) = (chunksOf c l).map (List.map f)
  | [] => by rw [chunksOf, List.map_nil, chunksOf]; rfl
  | a :: l => by
    rw [List.map_cons, chunksOf, chunksOf]
    rw [← List.map_take, ← List.map_drop, chunksOf_map c f (l.drop c)]
    rfl
termination_by l => l.length
decreasing_by simp [List.length_drop]; omega

/-- C6: core operations are deterministic pure functions of their
inputs; in particular, parallel basis evaluation with `numThreads ≥ 1`
workers produces exactly the single-threaded basis evaluation for the
same grid points and order. -/
theorem parallel_eval_matches_sequential (numThreads N : ℕ)
    (pts : List (ℝ × ℝ)) (_hthreads : 1 ≤ numThreads) :
    parallelBasisEval numThreads N pts = basisEval N pts := by
  rw [parallelBasisEval, basisEval, ← chunksOf_map, chunksOf_flatten]

/-- Witness for C6: two workers on a concrete three-point grid produce
the single-threaded result. -/
theorem parallel_eval_matches_sequential_witness :
    parallelBasisEval 2 1 [((0 : ℝ), (0 : ℝ)), (1, 1), (2, 2)]
      = basisEval 1 [((0 : ℝ), (0 : ℝ)), (1, 1), (2, 2)] :=
  parallel_eval_matches_sequential 2 1 _ (by norm_num)

end Spharpy
